import Mathlib

/-!
Shallow embedding of the `alx-files_manager` service core
(controllers `FilesController`, `UsersController`, `AuthController`
and utilities `utils/redis.js`, `utils/db.js`, `utils/auth.js`),
together with theorems settling the frozen claims about the spec.

Modelling conventions:
* MongoDB ObjectIds and session tokens are plain strings.
* The users collection and the files collection are Lean lists in
  insertion order; `insertOne` appends, `findOne` is `List.find?`.
* The Redis cache is an association list; `setex` conses (shadowing),
  `del` removes every binding of the key.  TTLs are not modelled
  (no claim is about expiry).
* A query-string value is `JSVal`: absent (`undefined`) or a string.
  JavaScript `Number(·)` is modelled for optional-sign decimal integer
  literals (and `Number("") = 0`); every other string is NaN (`none`).
* The `sha1` hash, the base64 decoder, blob storage (`existsSync` +
  `readFile`, merged into one `disk : String → Option String` map) and
  the `File` constructor/`save` of the absent `utils/file.js` are
  passed as parameters; response headers are not modelled.
-/

namespace FilesManager

/-- A JavaScript value arriving from a query string or request body:
either `undefined` (absent) or a string. -/
inductive JSVal : Type
  | undef : JSVal
  | str : String → JSVal
deriving DecidableEq

/-- JavaScript truthiness test `!v` for a query value: `undefined` and the
empty string are falsy. -/
def jsFalsy : JSVal → Bool
  | JSVal.undef => true
  | JSVal.str s => decide (s = "")

/-- Truthiness of an optional string body field (`undefined` or `""` are falsy). -/
def jsOptFalsy : Option String → Bool
  | none => true
  | some s => decide (s = "")

/-- String interpolation `${v}` of a query value (template literal). -/
def jsTemplate : JSVal → String
  | JSVal.undef => "undefined"
  | JSVal.str s => s

/-- `Number.isNaN(v)` does not coerce: it is `true` only when its argument is
the number value NaN.  A query value is `undefined` or a string, never a
number, so on these inputs the check in the source is always `false`. -/
def numberIsNaN (_ : JSVal) : Bool := false

/-- Digit-string test used by the integer fragment of `Number(·)`. -/
def isDigits (l : List Char) : Bool := !l.isEmpty && l.all (fun c => c.isDigit)

/-- Value of a (nonempty) decimal digit string. -/
def natOfDigits (l : List Char) : Nat :=
  l.foldl (fun acc c => acc * 10 + (c.toNat - 48)) 0

/-- JavaScript `Number(s)` on a string, restricted to optional-sign decimal
integer literals; `Number("") = 0`; every other string is NaN (`none`). -/
def jsNumber (s : String) : Option Int :=
  let l := s.toList
  if l.isEmpty then some 0
  else if isDigits l then some (Int.ofNat (natOfDigits l))
  else
    match l with
    | '-' :: rest => if isDigits rest then some (-(Int.ofNat (natOfDigits rest))) else none
    | '+' :: rest => if isDigits rest then some (Int.ofNat (natOfDigits rest)) else none
    | _ => none

/-- `Number(v)` on a query value: `Number(undefined)` is NaN. -/
def jsNumberV : JSVal → Option Int
  | JSVal.undef => none
  | JSVal.str s => jsNumber s

/-- JavaScript single-character `String.prototype.split` on a character list:
`splitChar c l` cuts `l` at every occurrence of `c` (keeping empty pieces),
mirroring `s.split(c)`. -/
def splitChar (c : Char) : List Char → List (List Char)
  | [] => [[]]
  | x :: xs =>
    if x = c then [] :: splitChar c xs
    else
      match splitChar c xs with
      | [] => [[x]]
      | y :: ys => (x :: y) :: ys

/-- `s.split(sep)` for a single-character separator, as strings. -/
def jsSplit (sep : Char) (s : String) : List String :=
  (splitChar sep s.toList).map (fun l => String.mk l)

/-! ## Data model -/

/-- A stored user document (`users` collection): `_id`, `email`, and the
sha1 `password` hash written by `DBClient.addUser`. -/
structure User where
  id : String
  email : String
  password : String
deriving DecidableEq

/-- The `{email, id}` object returned by `getUserFromSession`. -/
structure SessionUser where
  email : String
  id : String
deriving DecidableEq

/-- File kinds accepted by the service. -/
inductive FileKind : Type
  | folder : FileKind
  | file : FileKind
  | image : FileKind
deriving DecidableEq

/-- A stored file document: owner, name, kind, parent (root `0` is `none`),
visibility and the blob path `localPath`. -/
structure FileRec where
  id : String
  userId : String
  name : String
  kind : FileKind
  parentId : Option String
  isPublic : Bool
  localPath : String
deriving DecidableEq

/-- A thumbnail job pushed onto `fileQueue` by `postUpload`. -/
structure Job where
  userId : String
  fileId : String
deriving DecidableEq

/-- A job pushed onto `userQueue` by `UsersController.postNew`. -/
structure UserJob where
  userId : String
deriving DecidableEq

/-- The `{email, id}` body returned by `DBClient.addUser`. -/
structure NewUserOut where
  email : String
  id : String
deriving DecidableEq

/-- The `{token}` body returned by `generateSessionToken`. -/
structure TokenOut where
  token : String
deriving DecidableEq

/-- Outcome of a controller action: a JSON success body with its HTTP
status, or a JSON error body `{error: message}` with its status. -/
inductive ApiResult (α : Type) : Type
  | ok : Nat → α → ApiResult α
  | err : Nat → String → ApiResult α
deriving DecidableEq

/-! ## `utils/db.js` — DBClient -/

/-- `DBClient.findUserByEmail`: `findOne({email})` over the users list. -/
def findUserByEmail (db : List User) (email : String) : Option User :=
  db.find? (fun u => decide (u.email = email))

/-- `DBClient.findUserById`: `findOne({_id})` over the users list. -/
def findUserById (db : List User) (userId : String) : Option User :=
  db.find? (fun u => decide (u.id = userId))

/-- `DBClient.addUser`: hashes the password with sha1, inserts the document
(`insertOne` appends; `newId` stands for the generated ObjectId) and returns
`{email, id}` of the inserted row. -/
def addUser (sha1 : String → String) (db : List User) (newId email password : String) :
    NewUserOut × List User :=
  (⟨email, newId⟩, db ++ [⟨newId, email, sha1 password⟩])

/-! ## `utils/redis.js` — RedisClient -/

/-- The Redis key space: an association list, most recent binding first. -/
abbrev RStore : Type := List (String × String)

/-- `redisClient.get`. -/
def rget (st : RStore) (k : String) : Option String :=
  (List.find? (fun kv => decide (kv.1 = k)) st).map (fun kv => kv.2)

/-- `redisClient.set` (`setex`; the expiry argument is not modelled). -/
def rset (st : RStore) (k v : String) : RStore := (k, v) :: st

/-- `redisClient.del`: removes every binding of the key. -/
def rdel (st : RStore) (k : String) : RStore :=
  List.filter (fun kv => decide (kv.1 ≠ k)) st

/-! ## `utils/auth.js` -/

/-- The `{email, password}` object built by `getBasicAuthToken`; the
`password` is `none` when the decoded credential has no `:` (destructuring
yields `undefined`). -/
structure BasicCreds where
  email : String
  password : Option String
deriving DecidableEq

/-- `getBasicAuthToken`: takes the second space-separated part of the
`Authorization` header, base64-decodes it (`decode` parameter), splits on
`:` and keeps the first two segments.  Returns `none` (null) when the
header is absent or falsy or has no second part. -/
def getBasicAuthToken (decode : String → String) (authHeader : Option String) :
    Option BasicCreds :=
  match authHeader with
  | none => none
  | some h =>
    if h = "" then none
    else
      match (jsSplit ' ' h).get? 1 with
      | none => none
      | some token =>
        if token = "" then none
        else
          let decodedToken := decode token
          let parts := jsSplit ':' decodedToken
          some ⟨((parts.get? 0).getD ""), parts.get? 1⟩

/-- `authenticateUser`: looks the user up by email, hashes the supplied
password and compares with the stored hash; `none` on missing user or
mismatch. -/
def authenticateUser (sha1 : String → String) (db : List User) (email password : String) :
    Option User :=
  match findUserByEmail db email with
  | none => none
  | some user => if user.password ≠ sha1 password then none else some user

/-- `generateSessionToken`: stores `auth_<token> → userId` in Redis with a
24-hour expiry (TTL not modelled; `token` stands for the generated uuid)
and returns the token. -/
def generateSessionToken (st : RStore) (userId token : String) : String × RStore :=
  (token, rset st ("auth_" ++ token) userId)

/-- `deleteSessionToken`: reads `auth_<token>`; if the value is falsy
(absent or empty) returns `false`, else deletes the key and returns
`true`. -/
def deleteSessionToken (st : RStore) (token : String) : Bool × RStore :=
  match rget st ("auth_" ++ token) with
  | none => (false, st)
  | some v => if v = "" then (false, st) else (true, rdel st ("auth_" ++ token))

/-- `getUserFromSession`: resolves the token in Redis, then loads the user
by id and returns `{email, id}`; `none` when either lookup fails. -/
def getUserFromSession (st : RStore) (db : List User) (token : String) : Option SessionUser :=
  match rget st ("auth_" ++ token) with
  | none => none
  | some userId =>
    if userId = "" then none
    else
      match findUserById db userId with
      | none => none
      | some user => some ⟨user.email, user.id⟩

/-! ## `utils/file.js` — FilesCollection (file not under src/; modelled from the spec) -/

/-- The fixed page size of listings. -/
def MAX_PAGE_SIZE : Nat := 20

/-- Offset of a listing page: `page * pageSize`, with a non-numeric page
(NaN, `none`) or a negative page treated as page `0`. -/
def pageOffset : Option Int → Nat
  | none => 0
  | some n => if n < 0 then 0 else n.toNat * MAX_PAGE_SIZE

/-- Modelled from the spec: `FilesCollection.findAllUserFilesByParentId` of
the absent `utils/file.js`.  §4.3 `listChildren`: returns the entities owned
by `userId` whose `parentId` matches, in insertion order, using
`offset = page * pageSize` with fixed page size 20; `page < 0` or
non-numeric is treated as `0`; pages past the end are empty. -/
def findAllUserFilesByParentId (files : List FileRec) (userId : String)
    (parentId : Option String) (page : Option Int) : List FileRec :=
  ((files.filter (fun f => decide (f.userId = userId ∧ f.parentId = parentId))).drop
    (pageOffset page)).take MAX_PAGE_SIZE

/-- Modelled from the spec: `FilesCollection.findUserFileById` of the absent
`utils/file.js`.  §4.3 `getOwned`: returns the file only if it belongs to
`userId`; otherwise behaves as not found. -/
def findUserFileById (files : List FileRec) (userId fileId : String) : Option FileRec :=
  files.find? (fun f => decide (f.id = fileId ∧ f.userId = userId))

/-- Modelled from the spec: `FilesCollection.findPublicOrOwnFile` of the
absent `utils/file.js`.  §4.3 `resolveForServing`: returns the file if it is
public OR the viewer owns it; tolerates an anonymous viewer (`none`). -/
def findPublicOrOwnFile (files : List FileRec) (viewer : Option String)
    (fileId : String) : Option FileRec :=
  files.find? (fun f => decide (f.id = fileId ∧ (f.isPublic = true ∨ viewer = some f.userId)))

/-- Modelled from the spec: `FilesCollection.updateFilePublication` of the
absent `utils/file.js`.  §4.3 `setPublication`: updates visibility only if
the caller owns the file, returning the updated record and collection;
otherwise not found and the collection is unchanged. -/
def updateFilePublication (files : List FileRec) (userId fileId : String)
    (isPublished : Bool) : Option FileRec × List FileRec :=
  match files.find? (fun f => decide (f.id = fileId ∧ f.userId = userId)) with
  | none => (none, files)
  | some f =>
    (some { f with isPublic := isPublished },
     files.map (fun g =>
       if g.id = fileId ∧ g.userId = userId then { g with isPublic := isPublished } else g))

/-! ## `controllers/FilesController` (src/unnamed/part_000)

Each action takes the result of `getCurrentUser` as an `Option SessionUser`
parameter (`none` is a missing/invalid `X-Token`). -/

/-- `FilesController.postUpload`: 401 without a user; otherwise the `File`
construction + `save` of the absent `utils/file.js` is abstracted by the
`saveResult` parameter — on error the message is returned with status 400,
on success the saved file is returned with 201 and a `{userId, fileId}` job
is pushed onto `fileQueue` exactly when the saved type is `image`.  The
second component is the list of jobs enqueued by the call. -/
def postUpload (currentUser : Option SessionUser)
    (saveResult : Except String FileRec) : ApiResult FileRec × List Job :=
  match currentUser with
  | none => (ApiResult.err 401 "Unauthorized", [])
  | some u =>
    match saveResult with
    | Except.error e => (ApiResult.err 400 e, [])
    | Except.ok savedFile =>
      (ApiResult.ok 201 savedFile,
       if savedFile.kind = FileKind.image then [⟨u.id, savedFile.id⟩] else [])

/-- `FilesController.getShow`: 401 without a user, 404 when
`findUserFileById` misses, else the file with 200. -/
def getShow (files : List FileRec) (currentUser : Option SessionUser)
    (fileId : String) : ApiResult FileRec :=
  match currentUser with
  | none => ApiResult.err 401 "Unauthorized"
  | some u =>
    match findUserFileById files u.id fileId with
    | none => ApiResult.err 404 "Not found"
    | some f => ApiResult.ok 200 f

/-- Effective `parentId` in `getIndex`: the query value is replaced by the
root sentinel when it is the string `"0"` or falsy, else kept as a string. -/
def effParentId (v : JSVal) : Option String :=
  if v = JSVal.str "0" ∨ jsFalsy v = true then none
  else
    match v with
    | JSVal.undef => none
    | JSVal.str s => some s

/-- `FilesController.getIndex`: 401 without a user; coerces `parentId`
(`'0'` or falsy become the root) and `page`
(`page = Number.isNaN(page) ? 0 : Number(page)`), then returns the page of
`findAllUserFilesByParentId` with 200. -/
def getIndex (files : List FileRec) (currentUser : Option SessionUser)
    (parentIdQ pageQ : JSVal) : ApiResult (List FileRec) :=
  match currentUser with
  | none => ApiResult.err 401 "Unauthorized"
  | some u =>
    let parentId := effParentId parentIdQ
    let page := if numberIsNaN pageQ then some 0 else jsNumberV pageQ
    ApiResult.ok 200 (findAllUserFilesByParentId files u.id parentId page)

/-- `FilesController.updatePublication` (shared by `putPublish` and
`putUnpublish`): 401 without a user, 404 when `updateFilePublication`
misses, else the updated file with 200.  The second component is the files
collection after the call. -/
def updatePublication (files : List FileRec) (currentUser : Option SessionUser)
    (fileId : String) (isPublished : Bool) : ApiResult FileRec × List FileRec :=
  match currentUser with
  | none => (ApiResult.err 401 "Unauthorized", files)
  | some u =>
    match updateFilePublication files u.id fileId isPublished with
    | (none, files2) => (ApiResult.err 404 "Not found", files2)
    | (some f, files2) => (ApiResult.ok 200 f, files2)

/-- Membership test `[500, 250, 100].includes(Number(size))`: NaN (`none`)
is never a member. -/
def includesSize : Option Int → Bool
  | none => false
  | some n => decide (n = 500 ∨ n = 250 ∨ n = 100)

/-- The path read by `getFile`: `localPath + '_' + size` (the raw query
string interpolated) when `!Number.isNaN(size)` and
`[500,250,100].includes(Number(size))`, else `localPath`. -/
def chosenFilePath (f : FileRec) (size : JSVal) : String :=
  if (!numberIsNaN size && includesSize (jsNumberV size)) = true then
    f.localPath ++ "_" ++ jsTemplate size
  else f.localPath

/-- `FilesController.getFile`: resolves via `findPublicOrOwnFile` with the
viewer id or null (no 401 for an anonymous viewer), 404 when unresolved,
400 for a folder, then 404 when the chosen path is absent on disk
(`existsSync`), else the bytes with 200 (`readFile`; disk is the map
`path ↦ content` and response headers are not modelled). -/
def getFile (disk : String → Option String) (files : List FileRec)
    (currentUser : Option SessionUser) (fileId : String) (size : JSVal) :
    ApiResult String :=
  match findPublicOrOwnFile files (currentUser.map (fun u => u.id)) fileId with
  | none => ApiResult.err 404 "Not found"
  | some f =>
    if f.kind = FileKind.folder then ApiResult.err 400 "A folder doesn\x27t have content"
    else
      match disk (chosenFilePath f size) with
      | none => ApiResult.err 404 "Not found"
      | some data => ApiResult.ok 200 data

/-! ## `controllers/UsersController` -/

/-- `UsersController.postNew`: 400 `Missing email` when the body email is
falsy, then 400 `Missing password` when the password is falsy, then 400
`Already exist` when `findUserByEmail` hits; otherwise `addUser` inserts
(with `freshId` as the generated ObjectId) and a `{userId}` job goes onto
`userQueue`.  Components: response, users collection after the call, jobs
enqueued. -/
def postNew (sha1 : String → String) (db : List User) (freshId : String)
    (email password : Option String) :
    ApiResult NewUserOut × List User × List UserJob :=
  if jsOptFalsy email then (ApiResult.err 400 "Missing email", db, [])
  else if jsOptFalsy password then (ApiResult.err 400 "Missing password", db, [])
  else
    let e := email.getD ""
    let p := password.getD ""
    match findUserByEmail db e with
    | some _ => (ApiResult.err 400 "Already exist", db, [])
    | none =>
      let r := addUser sha1 db freshId e p
      (ApiResult.ok 201 r.1, r.2, [⟨r.1.id⟩])

/-! ## `controllers/AuthController` -/

/-- `AuthController.getConnect`: destructures the result of
`getBasicAuthToken` — when that result is null the destructuring throws a
`TypeError` and no response is produced, modelled as `none`.  Otherwise 401
when email or password is falsy or `authenticateUser` misses, else a token
is issued (`newToken` stands for the generated uuid) and returned with 200,
together with the Redis store after the call. -/
def getConnect (decode sha1 : String → String) (db : List User) (store : RStore)
    (newToken : String) (authHeader : Option String) :
    Option (ApiResult TokenOut × RStore) :=
  match getBasicAuthToken decode authHeader with
  | none => none
  | some creds =>
    if creds.email = "" ∨ creds.password = none ∨ creds.password = some "" then
      some (ApiResult.err 401 "Unauthorized", store)
    else
      match authenticateUser sha1 db creds.email (creds.password.getD "") with
      | none => some (ApiResult.err 401 "Unauthorized", store)
      | some user =>
        let r := generateSessionToken store user.id newToken
        some (ApiResult.ok 200 ⟨r.1⟩, r.2)

/-! ## General lemmas -/

theorem find_of_unique {α : Type} {p : α → Bool} {l : List α} {a : α}
    (hmem : a ∈ l) (hp : p a = true)
    (huniq : ∀ b ∈ l, p b = true → b = a) : l.find? p = some a := by
  induction l with
  | nil => cases hmem
  | cons x xs ih =>
    by_cases hx : p x = true
    · have hxa : x = a := huniq x (List.mem_cons_self x xs) hx
      subst hxa
      simp [List.find?, hx]
    · have hxa : x ≠ a := fun he => hx (he ▸ hp)
      have hmem2 : a ∈ xs := by
        rcases List.mem_cons.mp hmem with h | h
        · exact absurd h.symm hxa
        · exact h
      have := ih hmem2 (fun b hb hpb => huniq b (List.mem_cons_of_mem x hb) hpb)
      simp [List.find?, hx, this]

theorem find_of_none {α : Type} {p : α → Bool} {l : List α}
    (h : ∀ b ∈ l, p b = false) : l.find? p = none :=
  List.find?_eq_none.mpr (fun x hx => by simp [h x hx])

theorem rget_rset_self (st : RStore) (k v : String) : rget (rset st k v) k = some v := by
  simp [rget, rset, List.find?]

theorem rget_rdel_self (st : RStore) (k : String) : rget (rdel st k) k = none := by
  have hfind : List.find? (fun kv => decide (kv.1 = k)) (rdel st k) = none := by
    apply find_of_none
    intro kv hkv
    have hmem := List.mem_filter.mp hkv
    simp only [decide_eq_true_eq] at hmem ⊢
    simpa using hmem.2
  simp [rget, rdel] at hfind ⊢

theorem splitChar_not_mem {c : Char} {l : List Char} (h : c ∉ l) :
    splitChar c l = [l] := by
  induction l with
  | nil => rfl
  | cons x xs ih =>
    have hx : x ≠ c := fun he => h (he ▸ List.mem_cons_self x xs)
    have hxs : c ∉ xs := fun hm => h (List.mem_cons_of_mem x hm)
    simp only [splitChar, if_neg hx, ih hxs]

theorem splitChar_append {c : Char} {l₁ l₂ : List Char} (h : c ∉ l₁) :
    splitChar c (l₁ ++ c :: l₂) = l₁ :: splitChar c l₂ := by
  induction l₁ with
  | nil => simp [splitChar]
  | cons x xs ih =>
    have hx : x ≠ c := fun he => h (he ▸ List.mem_cons_self x xs)
    have hxs : c ∉ xs := fun hm => h (List.mem_cons_of_mem x hm)
    simp only [List.cons_append, splitChar, if_neg hx, List.append_eq]
    rw [ih hxs]

/-! ## Claim theorems -/

/-- Claim C1: for every listing request, a non-numeric page value (NaN) or a
page value less than 0 is treated as page 0, the listing uses
`offset = page * 20` with fixed page size 20, and `getIndex` with a
non-numeric page query string behaves identically to `getIndex` with
page `"0"`. -/
theorem getIndex_nonNumericPage
    (files : List FileRec) (u : SessionUser) (pq : JSVal) (s : String)
    (hs : jsNumber s = none) :
    getIndex files (some u) pq (JSVal.str s) = getIndex files (some u) pq (JSVal.str "0")
    ∧ (∀ n : Int, n < 0 → pageOffset (some n) = 0)
    ∧ (∀ n : Nat, pageOffset (some (n : Int)) = n * 20)
    ∧ (∀ (fs : List FileRec) (uid : String) (pid : Option String) (page : Option Int),
        findAllUserFilesByParentId fs uid pid page
          = ((fs.filter (fun f => decide (f.userId = uid ∧ f.parentId = pid))).drop
              (pageOffset page)).take 20) := by
  refine ⟨?_, ?_, ?_, ?_⟩
  · have h0 : jsNumber "0" = some 0 := by decide
    simp only [getIndex, numberIsNaN, Bool.false_eq_true, if_false, jsNumberV, hs, h0]
    simp [findAllUserFilesByParentId, pageOffset]
  · intro n hn
    simp [pageOffset, hn]
  · intro n
    simp only [pageOffset, MAX_PAGE_SIZE]
    split <;> omega
  · intro fs uid pid page
    rfl

/-- Witness for C1 at the concrete non-numeric page string `"abc"`. -/
theorem getIndex_nonNumericPage_w :
    jsNumber "abc" = none ∧
    (getIndex [] (some ⟨"a@b.c", "u1"⟩) JSVal.undef (JSVal.str "abc")
        = getIndex [] (some ⟨"a@b.c", "u1"⟩) JSVal.undef (JSVal.str "0")
      ∧ (∀ n : Int, n < 0 → pageOffset (some n) = 0)
      ∧ (∀ n : Nat, pageOffset (some (n : Int)) = n * 20)
      ∧ (∀ (fs : List FileRec) (uid : String) (pid : Option String) (page : Option Int),
          findAllUserFilesByParentId fs uid pid page
            = ((fs.filter (fun f => decide (f.userId = uid ∧ f.parentId = pid))).drop
                (pageOffset page)).take 20)) :=
  ⟨by decide, getIndex_nonNumericPage [] ⟨"a@b.c", "u1"⟩ JSVal.undef "abc" (by decide)⟩

/-- Claim C2: for a resolvable non-folder file, `getFile` reads the variant
path `localPath + "_" + size` exactly when the size query value equals 500,
250 or 100 as a number, and the original `localPath` for every other size
value (absent, non-numeric, or any other number); when the chosen path is
absent on disk the result is 404 `Not found`, with no distinct pending
outcome, and otherwise the bytes at that path are served. -/
theorem getFile_sizeSelection
    (disk : String → Option String) (files : List FileRec) (cu : Option SessionUser)
    (fileId : String) (size : JSVal) (f : FileRec)
    (hres : findPublicOrOwnFile files (cu.map (fun u => u.id)) fileId = some f)
    (hnf : f.kind ≠ FileKind.folder) :
    (includesSize (jsNumberV size) = true →
       chosenFilePath f size = f.localPath ++ "_" ++ jsTemplate size)
    ∧ (includesSize (jsNumberV size) = false → chosenFilePath f size = f.localPath)
    ∧ (disk (chosenFilePath f size) = none →
         getFile disk files cu fileId size = ApiResult.err 404 "Not found")
    ∧ (∀ data, disk (chosenFilePath f size) = some data →
         getFile disk files cu fileId size = ApiResult.ok 200 data) := by
  refine ⟨?_, ?_, ?_, ?_⟩
  · intro h
    simp [chosenFilePath, numberIsNaN, h]
  · intro h
    simp [chosenFilePath, numberIsNaN, h]
  · intro h
    simp [getFile, hres, hnf, h]
  · intro data h
    simp [getFile, hres, hnf, h]

/-- Sample image file used by the C2 witness. -/
def fileC2 : FileRec := ⟨"f1", "u1", "a.png", FileKind.image, none, true, "p"⟩

/-- Sample blob store used by the C2 witness: only the 250-variant exists. -/
def diskC2 : String → Option String := fun p => if p = "p_250" then some "bytes" else none

/-- Witness for C2 at the concrete size string `"250"`. -/
theorem getFile_sizeSelection_w :
    findPublicOrOwnFile [fileC2] ((none : Option SessionUser).map (fun u => u.id)) "f1"
        = some fileC2
    ∧ fileC2.kind ≠ FileKind.folder
    ∧ ((includesSize (jsNumberV (JSVal.str "250")) = true →
          chosenFilePath fileC2 (JSVal.str "250")
            = fileC2.localPath ++ "_" ++ jsTemplate (JSVal.str "250"))
       ∧ (includesSize (jsNumberV (JSVal.str "250")) = false →
            chosenFilePath fileC2 (JSVal.str "250") = fileC2.localPath)
       ∧ (diskC2 (chosenFilePath fileC2 (JSVal.str "250")) = none →
            getFile diskC2 [fileC2] none "f1" (JSVal.str "250")
              = ApiResult.err 404 "Not found")
       ∧ (∀ data, diskC2 (chosenFilePath fileC2 (JSVal.str "250")) = some data →
            getFile diskC2 [fileC2] none "f1" (JSVal.str "250")
              = ApiResult.ok 200 data)) :=
  ⟨by decide, by decide,
   getFile_sizeSelection diskC2 [fileC2] none "f1" (JSVal.str "250") fileC2
     (by decide) (by decide)⟩

/-- Claim C3: issuing a session token and immediately resolving it returns
the issuing user's id; after revoking the token, resolving returns none;
revoke reports whether the key existed, so a second revoke returns false. -/
theorem session_lifecycle
    (store : RStore) (db : List User) (userId token : String) (u : User)
    (hu : findUserById db userId = some u) (hne : userId ≠ "") :
    u.id = userId
    ∧ rget ((generateSessionToken store userId token).2) ("auth_" ++ token) = some userId
    ∧ getUserFromSession ((generateSessionToken store userId token).2) db token
        = some ⟨u.email, u.id⟩
    ∧ (deleteSessionToken ((generateSessionToken store userId token).2) token).1 = true
    ∧ rget ((deleteSessionToken ((generateSessionToken store userId token).2) token).2)
        ("auth_" ++ token) = none
    ∧ getUserFromSession
        ((deleteSessionToken ((generateSessionToken store userId token).2) token).2)
        db token = none
    ∧ (deleteSessionToken
        ((deleteSessionToken ((generateSessionToken store userId token).2) token).2)
        token).1 = false
    ∧ (∀ (st : RStore) (tk : String), rget st ("auth_" ++ tk) = none →
        (deleteSessionToken st tk).1 = false) := by
  have hu2 : db.find? (fun v => decide (v.id = userId)) = some u := hu
  have hstep := List.find?_some hu2
  have hid : u.id = userId := by simpa using hstep
  have h1 : rget ((generateSessionToken store userId token).2) ("auth_" ++ token)
      = some userId :=
    rget_rset_self store ("auth_" ++ token) userId
  have hdel : deleteSessionToken ((generateSessionToken store userId token).2) token
      = (true, rdel ((generateSessionToken store userId token).2) ("auth_" ++ token)) := by
    simp [deleteSessionToken, h1, hne]
  have h2 : rget ((deleteSessionToken ((generateSessionToken store userId token).2)
      token).2) ("auth_" ++ token) = none := by
    rw [hdel]
    exact rget_rdel_self _ _
  refine ⟨hid, h1, ?_, ?_, h2, ?_, ?_, ?_⟩
  · simp [getUserFromSession, h1, hne, hu]
  · rw [hdel]
  · simp [getUserFromSession, h2]
  · generalize hX : (deleteSessionToken ((generateSessionToken store userId token).2)
      token).2 = X at h2 ⊢
    simp [deleteSessionToken, h2]
  · intro st tk h
    simp [deleteSessionToken, h]

/-- Sample user used by the C3 witness. -/
def userC3 : User := ⟨"u1", "a@b.c", "h1"⟩

/-- Witness for C3 at a concrete store, user and token. -/
theorem session_lifecycle_w :
    findUserById [userC3] "u1" = some userC3
    ∧ "u1" ≠ ""
    ∧ (userC3.id = "u1"
       ∧ rget ((generateSessionToken [] "u1" "t").2) ("auth_" ++ "t") = some "u1"
       ∧ getUserFromSession ((generateSessionToken [] "u1" "t").2) [userC3] "t"
           = some ⟨userC3.email, userC3.id⟩
       ∧ (deleteSessionToken ((generateSessionToken [] "u1" "t").2) "t").1 = true
       ∧ rget ((deleteSessionToken ((generateSessionToken [] "u1" "t").2) "t").2)
           ("auth_" ++ "t") = none
       ∧ getUserFromSession
           ((deleteSessionToken ((generateSessionToken [] "u1" "t").2) "t").2)
           [userC3] "t" = none
       ∧ (deleteSessionToken
           ((deleteSessionToken ((generateSessionToken [] "u1" "t").2) "t").2) "t").1
           = false
       ∧ (∀ (st : RStore) (tk : String), rget st ("auth_" ++ tk) = none →
           (deleteSessionToken st tk).1 = false)) :=
  ⟨by decide, by decide, session_lifecycle [] [userC3] "u1" "t" userC3 (by decide) (by decide)⟩

/-- Claim C4: a pair registered once authenticates exactly with that pair;
any password whose hash differs fails, an unknown email fails, and the two
failure outcomes are the same value, indistinguishable to the caller. -/
theorem authenticateUser_exact
    (sha1 : String → String) (db : List User) (email pw : String) (u : User)
    (hfind : findUserByEmail db email = some u) (hhash : u.password = sha1 pw) :
    authenticateUser sha1 db email pw = some u
    ∧ (∀ p, sha1 p ≠ sha1 pw → authenticateUser sha1 db email p = none)
    ∧ (∀ e p, findUserByEmail db e = none → authenticateUser sha1 db e p = none)
    ∧ (∀ p e2 p2, sha1 p ≠ sha1 pw → findUserByEmail db e2 = none →
        authenticateUser sha1 db email p = authenticateUser sha1 db e2 p2) := by
  have h1 : authenticateUser sha1 db email pw = some u := by
    simp [authenticateUser, hfind, hhash]
  have h2 : ∀ p, sha1 p ≠ sha1 pw → authenticateUser sha1 db email p = none := by
    intro p hp
    have hd : u.password ≠ sha1 p := by
      rw [hhash]
      exact fun he => hp he.symm
    simp [authenticateUser, hfind, hd]
  have h3 : ∀ e p, findUserByEmail db e = none → authenticateUser sha1 db e p = none := by
    intro e p he
    simp [authenticateUser, he]
  exact ⟨h1, h2, h3, fun p e2 p2 hp he2 => by rw [h2 p hp, h3 e2 p2 he2]⟩

/-- Sample registered user for the C4 witness, with the identity as hash. -/
def userC4 : User := ⟨"u1", "me@x.y", "pw1"⟩

/-- Witness for C4 with the identity hash, the registered password `"pw1"`. -/
theorem authenticateUser_exact_w :
    findUserByEmail [userC4] "me@x.y" = some userC4
    ∧ userC4.password = (fun s => s) "pw1"
    ∧ (authenticateUser (fun s => s) [userC4] "me@x.y" "pw1" = some userC4
       ∧ (∀ p, (fun s => s) p ≠ (fun s => s) "pw1" →
           authenticateUser (fun s => s) [userC4] "me@x.y" p = none)
       ∧ (∀ e p, findUserByEmail [userC4] e = none →
           authenticateUser (fun s => s) [userC4] e p = none)
       ∧ (∀ p e2 p2, (fun s => s) p ≠ (fun s => s) "pw1" →
           findUserByEmail [userC4] e2 = none →
           authenticateUser (fun s => s) [userC4] "me@x.y" p
             = authenticateUser (fun s => s) [userC4] e2 p2)) :=
  ⟨by decide, rfl,
   authenticateUser_exact (fun s => s) [userC4] "me@x.y" "pw1" userC4 (by decide) rfl⟩

/-- Claim C5: a file is served only if it is public or the viewer owns it —
an anonymous viewer resolves the file iff `isPublic`, the owner always
resolves it; a folder target fails with 400 rather than serving bytes; and
`getFile` is the only file read path tolerating an anonymous viewer (every
other action answers 401 without a user). -/
theorem getFile_visibility
    (disk : String → Option String) (files : List FileRec) (f : FileRec)
    (fileId : String) (size : JSVal)
    (hmem : f ∈ files) (hid : f.id = fileId)
    (huniq : ∀ g ∈ files, g.id = fileId → g = f) :
    (findPublicOrOwnFile files none fileId = some f ↔ f.isPublic = true)
    ∧ findPublicOrOwnFile files (some f.userId) fileId = some f
    ∧ (f.kind = FileKind.folder → f.isPublic = true →
        getFile disk files none fileId size
          = ApiResult.err 400 "A folder doesn\x27t have content")
    ∧ (∀ pq sq, getIndex files none pq sq = ApiResult.err 401 "Unauthorized")
    ∧ (∀ i, getShow files none i = ApiResult.err 401 "Unauthorized")
    ∧ (∀ i b, (updatePublication files none i b).1 = ApiResult.err 401 "Unauthorized")
    ∧ (∀ sr, (postUpload none sr).1 = ApiResult.err 401 "Unauthorized")
    ∧ (f.isPublic = true → f.kind ≠ FileKind.folder →
        getFile disk files none fileId size
          = match disk (chosenFilePath f size) with
            | none => ApiResult.err 404 "Not found"
            | some data => ApiResult.ok 200 data)
    ∧ (f.isPublic = false →
        getFile disk files none fileId size = ApiResult.err 404 "Not found") := by
  have hanon : f.isPublic = true →
      findPublicOrOwnFile files none fileId = some f := by
    intro hpub
    apply find_of_unique hmem
    · simp [hid, hpub]
    · intro g hg hgp
      simp only [decide_eq_true_eq] at hgp
      exact huniq g hg hgp.1
  have hanonN : f.isPublic = false →
      findPublicOrOwnFile files none fileId = none := by
    intro hpub
    apply find_of_none
    intro g hg
    rw [decide_eq_false_iff_not]
    rintro ⟨hgid, hgp | hgv⟩
    · have hgf := huniq g hg hgid
      rw [hgf, hpub] at hgp
      cases hgp
    · cases hgv
  refine ⟨⟨?_, hanon⟩, ?_, ?_, ?_, ?_, ?_, ?_, ?_, ?_⟩
  · intro h
    have h2 : files.find? (fun g => decide (g.id = fileId ∧ (g.isPublic = true ∨
        (none : Option String) = some g.userId))) = some f := h
    have hp := List.find?_some h2
    simp only [decide_eq_true_eq] at hp
    rcases hp.2 with hpub | hv
    · exact hpub
    · cases hv
  · apply find_of_unique hmem
    · simp [hid]
    · intro g hg hgp
      simp only [decide_eq_true_eq] at hgp
      exact huniq g hg hgp.1
  · intro hkind hpub
    simp [getFile, hanon hpub, hkind]
  · intro pq sq
    rfl
  · intro i
    rfl
  · intro i b
    rfl
  · intro sr
    rfl
  · intro hpub hnf
    simp [getFile, hanon hpub, hnf]
  · intro hpub
    simp [getFile, hanonN hpub]

/-- Sample private file used by the C5 witness. -/
def fileC5 : FileRec := ⟨"f5", "u5", "c.txt", FileKind.file, none, false, "r"⟩

/-- Witness for C5 at a one-file collection holding a private file. -/
theorem getFile_visibility_w :
    fileC5 ∈ [fileC5]
    ∧ fileC5.id = "f5"
    ∧ (∀ g ∈ [fileC5], g.id = "f5" → g = fileC5)
    ∧ ((findPublicOrOwnFile [fileC5] none "f5" = some fileC5 ↔ fileC5.isPublic = true)
       ∧ findPublicOrOwnFile [fileC5] (some fileC5.userId) "f5" = some fileC5
       ∧ (fileC5.kind = FileKind.folder → fileC5.isPublic = true →
           getFile diskC2 [fileC5] none "f5" JSVal.undef
             = ApiResult.err 400 "A folder doesn\x27t have content")
       ∧ (∀ pq sq, getIndex [fileC5] none pq sq = ApiResult.err 401 "Unauthorized")
       ∧ (∀ i, getShow [fileC5] none i = ApiResult.err 401 "Unauthorized")
       ∧ (∀ i b, (updatePublication [fileC5] none i b).1 = ApiResult.err 401 "Unauthorized")
       ∧ (∀ sr, (postUpload none sr).1 = ApiResult.err 401 "Unauthorized")
       ∧ (fileC5.isPublic = true → fileC5.kind ≠ FileKind.folder →
           getFile diskC2 [fileC5] none "f5" JSVal.undef
             = match diskC2 (chosenFilePath fileC5 JSVal.undef) with
               | none => ApiResult.err 404 "Not found"
               | some data => ApiResult.ok 200 data)
       ∧ (fileC5.isPublic = false →
           getFile diskC2 [fileC5] none "f5" JSVal.undef = ApiResult.err 404 "Not found")) :=
  ⟨List.mem_singleton.mpr rfl, rfl, by decide,
   getFile_visibility diskC2 [fileC5] fileC5 "f5" JSVal.undef
     (List.mem_singleton.mpr rfl) rfl (by decide)⟩

/-- Claim C6: for the ownership-gated lookups (`getShow` and
publish/unpublish), a caller asking for a file owned by someone else gets
exactly the same `Not found` outcome as a request for a wholly nonexistent
file id — the two runs are indistinguishable. -/
theorem ownedLookup_indistinguishable
    (files : List FileRec) (u2 : SessionUser) (f : FileRec) (fid2 : String) (b : Bool)
    (hmem : f ∈ files)
    (huniq : ∀ g ∈ files, g.id = f.id → g = f)
    (hown : f.userId ≠ u2.id)
    (habsent : ∀ g ∈ files, g.id ≠ fid2) :
    getShow files (some u2) f.id = ApiResult.err 404 "Not found"
    ∧ getShow files (some u2) f.id = getShow files (some u2) fid2
    ∧ updatePublication files (some u2) f.id b = (ApiResult.err 404 "Not found", files)
    ∧ updatePublication files (some u2) f.id b
        = updatePublication files (some u2) fid2 b := by
  have hfindF1 : files.find? (fun g => decide (g.id = f.id ∧ g.userId = u2.id)) = none := by
    apply find_of_none
    intro g hg
    rw [decide_eq_false_iff_not]
    rintro ⟨hgid, hgu⟩
    have hgf := huniq g hg hgid
    rw [hgf] at hgu
    exact hown hgu
  have hfindF2 : files.find? (fun g => decide (g.id = fid2 ∧ g.userId = u2.id)) = none := by
    apply find_of_none
    intro g hg
    rw [decide_eq_false_iff_not]
    rintro ⟨hgid, _⟩
    exact habsent g hg hgid
  have hfind1 : findUserFileById files u2.id f.id = none := hfindF1
  have hfind2 : findUserFileById files u2.id fid2 = none := hfindF2
  have hshow1 : getShow files (some u2) f.id = ApiResult.err 404 "Not found" := by
    simp [getShow, hfind1]
  have hshow2 : getShow files (some u2) fid2 = ApiResult.err 404 "Not found" := by
    simp [getShow, hfind2]
  have hupdF1 : updateFilePublication files u2.id f.id b = (none, files) := by
    unfold updateFilePublication
    rw [hfindF1]
  have hupdF2 : updateFilePublication files u2.id fid2 b = (none, files) := by
    unfold updateFilePublication
    rw [hfindF2]
  have hupd1 : updatePublication files (some u2) f.id b
      = (ApiResult.err 404 "Not found", files) := by
    simp [updatePublication, hupdF1]
  have hupd2 : updatePublication files (some u2) fid2 b
      = (ApiResult.err 404 "Not found", files) := by
    simp [updatePublication, hupdF2]
  exact ⟨hshow1, hshow1.trans hshow2.symm, hupd1, hupd1.trans hupd2.symm⟩

/-- Sample file owned by `u1`, used by the C6 witness. -/
def fileC6 : FileRec := ⟨"f6", "u1", "d.txt", FileKind.file, none, true, "s"⟩

/-- Witness for C6: user `u2` asks for `u1`'s file and for a missing id. -/
theorem ownedLookup_indistinguishable_w :
    fileC6 ∈ [fileC6]
    ∧ (∀ g ∈ [fileC6], g.id = fileC6.id → g = fileC6)
    ∧ fileC6.userId ≠ "u2"
    ∧ (∀ g ∈ [fileC6], g.id ≠ "nope")
    ∧ (getShow [fileC6] (some ⟨"z@w.v", "u2"⟩) fileC6.id = ApiResult.err 404 "Not found"
       ∧ getShow [fileC6] (some ⟨"z@w.v", "u2"⟩) fileC6.id
           = getShow [fileC6] (some ⟨"z@w.v", "u2"⟩) "nope"
       ∧ updatePublication [fileC6] (some ⟨"z@w.v", "u2"⟩) fileC6.id true
           = (ApiResult.err 404 "Not found", [fileC6])
       ∧ updatePublication [fileC6] (some ⟨"z@w.v", "u2"⟩) fileC6.id true
           = updatePublication [fileC6] (some ⟨"z@w.v", "u2"⟩) "nope" true) :=
  ⟨List.mem_singleton.mpr rfl, by decide, by decide, by decide,
   ownedLookup_indistinguishable [fileC6] ⟨"z@w.v", "u2"⟩ fileC6 "nope" true
     (List.mem_singleton.mpr rfl) (by decide) (by decide) (by decide)⟩

/-- Claim C7: a successful upload enqueues exactly one thumbnail job with
payload `{userId, fileId}` iff the saved file's kind is `image`; folder and
plain-file uploads enqueue no job. -/
theorem postUpload_jobIffImage (u : SessionUser) (f : FileRec) :
    (postUpload (some u) (Except.ok f)).1 = ApiResult.ok 201 f
    ∧ ((postUpload (some u) (Except.ok f)).2 = [⟨u.id, f.id⟩] ↔ f.kind = FileKind.image)
    ∧ (f.kind = FileKind.folder → (postUpload (some u) (Except.ok f)).2 = [])
    ∧ (f.kind = FileKind.file → (postUpload (some u) (Except.ok f)).2 = []) := by
  refine ⟨rfl, ⟨?_, ?_⟩, ?_, ?_⟩
  · intro h
    by_contra hk
    simp [postUpload, hk] at h
  · intro h
    simp [postUpload, h]
  · intro h
    simp [postUpload, h]
  · intro h
    simp [postUpload, h]

/-- Sample saved image used by the C7 witness. -/
def fileC7 : FileRec := ⟨"f7", "u7", "e.png", FileKind.image, none, false, "t"⟩

/-- Witness for C7 at a concrete user and saved image. -/
theorem postUpload_jobIffImage_w :
    (postUpload (some ⟨"q@r.s", "u7"⟩) (Except.ok fileC7)).1 = ApiResult.ok 201 fileC7
    ∧ ((postUpload (some ⟨"q@r.s", "u7"⟩) (Except.ok fileC7)).2 = [⟨"u7", fileC7.id⟩]
        ↔ fileC7.kind = FileKind.image)
    ∧ (fileC7.kind = FileKind.folder →
        (postUpload (some ⟨"q@r.s", "u7"⟩) (Except.ok fileC7)).2 = [])
    ∧ (fileC7.kind = FileKind.file →
        (postUpload (some ⟨"q@r.s", "u7"⟩) (Except.ok fileC7)).2 = []) :=
  postUpload_jobIffImage ⟨"q@r.s", "u7"⟩ fileC7

/-- Claim C8: a second registration of an existing email fails with the
conflict outcome `Already exist` and leaves the users collection unchanged;
a missing email fails with `Missing email`, a missing password with
`Missing password`, the email check coming first. -/
theorem postNew_duplicateEmail
    (sha1 : String → String) (db : List User) (freshId email pw : String) (u : User)
    (hdup : findUserByEmail db email = some u)
    (hem : email ≠ "") (hpw : pw ≠ "") :
    postNew sha1 db freshId (some email) (some pw)
        = (ApiResult.err 400 "Already exist", db, [])
    ∧ (∀ p, postNew sha1 db freshId none p = (ApiResult.err 400 "Missing email", db, []))
    ∧ (∀ p, postNew sha1 db freshId (some "") p
        = (ApiResult.err 400 "Missing email", db, []))
    ∧ postNew sha1 db freshId (some email) none
        = (ApiResult.err 400 "Missing password", db, [])
    ∧ postNew sha1 db freshId (some email) (some "")
        = (ApiResult.err 400 "Missing password", db, []) := by
  refine ⟨?_, ?_, ?_, ?_, ?_⟩
  · simp [postNew, jsOptFalsy, hem, hpw, hdup]
  · intro p
    simp [postNew, jsOptFalsy]
  · intro p
    simp [postNew, jsOptFalsy]
  · simp [postNew, jsOptFalsy, hem]
  · simp [postNew, jsOptFalsy, hem]

/-- Sample registered user for the C8 witness. -/
def userC8 : User := ⟨"u8", "dup@x.y", "h8"⟩

/-- Witness for C8: re-registering `dup@x.y` against a one-user collection. -/
theorem postNew_duplicateEmail_w :
    findUserByEmail [userC8] "dup@x.y" = some userC8
    ∧ "dup@x.y" ≠ ""
    ∧ "pw" ≠ ""
    ∧ (postNew (fun s => s) [userC8] "u9" (some "dup@x.y") (some "pw")
          = (ApiResult.err 400 "Already exist", [userC8], [])
       ∧ (∀ p, postNew (fun s => s) [userC8] "u9" none p
           = (ApiResult.err 400 "Missing email", [userC8], []))
       ∧ (∀ p, postNew (fun s => s) [userC8] "u9" (some "") p
           = (ApiResult.err 400 "Missing email", [userC8], []))
       ∧ postNew (fun s => s) [userC8] "u9" (some "dup@x.y") none
           = (ApiResult.err 400 "Missing password", [userC8], [])
       ∧ postNew (fun s => s) [userC8] "u9" (some "dup@x.y") (some "")
           = (ApiResult.err 400 "Missing password", [userC8], [])) :=
  ⟨by decide, by decide, by decide,
   postNew_duplicateEmail (fun s => s) [userC8] "u9" "dup@x.y" "pw" userC8
     (by decide) (by decide) (by decide)⟩

/-- Claim C9: when the `File` construction or save fails, `postUpload`
returns the error with status 400 and enqueues no thumbnail job — the job
list of a failed upload is empty. -/
theorem postUpload_errorNoJob (u : SessionUser) (e : String) :
    postUpload (some u) (Except.error e) = (ApiResult.err 400 e, []) := rfl

/-- Claim C10: a Basic-Auth credential decoding to more than one `:` keeps
only the segment between the first and second colon as the password (later
segments are discarded), so a registered password containing `:` never
authenticates through this interface; a missing header or one without a
second space-separated part makes `getBasicAuthToken` yield null — upon
which `getConnect` destructures null and dies (modelled `none`) instead of
answering 401. -/
theorem basicAuth_colonTruncation
    (decode : String → String) (header token emailPart p1 rest : String)
    (hdr : (jsSplit ' ' header).get? 1 = some token) (htok : token ≠ "")
    (hdec : decode token = emailPart ++ ":" ++ p1 ++ ":" ++ rest)
    (he : (':' : Char) ∉ emailPart.data) (hp : (':' : Char) ∉ p1.data) :
    getBasicAuthToken decode (some header) = some ⟨emailPart, some p1⟩
    ∧ (∀ d, getBasicAuthToken d none = none)
    ∧ (∀ (d : String → String) (h2 : String), (jsSplit ' ' h2).get? 1 = none →
        getBasicAuthToken d (some h2) = none)
    ∧ (∀ (sha1 : String → String) (db : List User) (u : User),
        (∀ a b, sha1 a = sha1 b → a = b) →
        findUserByEmail db emailPart = some u →
        u.password = sha1 (p1 ++ ":" ++ rest) →
        authenticateUser sha1 db emailPart p1 = none)
    ∧ (∀ (d sh : String → String) (db : List User) (st : RStore) (tk : String),
        getConnect d sh db st tk none = none) := by
  have hmk : ∀ s : String, String.mk s.data = s := fun _ => rfl
  have hhne : header ≠ "" := by
    intro h0
    rw [h0] at hdr
    simp [jsSplit, splitChar, List.get?] at hdr
  have hsplit : jsSplit ':' (decode token)
      = emailPart :: p1 :: (splitChar ':' rest.data).map String.mk := by
    rw [hdec]
    unfold jsSplit
    have hlist : (emailPart ++ ":" ++ p1 ++ ":" ++ rest).toList
        = emailPart.data ++ ':' :: (p1.data ++ ':' :: rest.data) := by
      simp [String.toList, String.data_append]
    rw [hlist, splitChar_append he, splitChar_append hp]
    simp [hmk]
  refine ⟨?_, ?_, ?_, ?_, ?_⟩
  · simp only [getBasicAuthToken, if_neg hhne, hdr, if_neg htok, hsplit, List.get?,
      Option.getD_some]
  · intro d
    rfl
  · intro d h2 hcase
    rw [List.get?_eq_getElem?] at hcase
    by_cases hh : h2 = ""
    · simp [getBasicAuthToken, hh]
    · simp [getBasicAuthToken, hh, hcase]
  · intro sha1 db u hinj hfind hpw2
    have hne2 : p1 ≠ p1 ++ ":" ++ rest := by
      intro h
      have hlen := congrArg String.length h
      rw [String.length_append, String.length_append] at hlen
      have hc : (":" : String).length = 1 := rfl
      rw [hc] at hlen
      omega
    have hhash : sha1 p1 ≠ sha1 (p1 ++ ":" ++ rest) := fun h => hne2 (hinj _ _ h)
    have hd : u.password ≠ sha1 p1 := by
      rw [hpw2]
      exact fun h2 => hhash h2.symm
    simp [authenticateUser, hfind, hd]
  · intro d sh db st tk
    rfl

/-- Witness for C10: header `Basic eHl6`, decoding to `a@b:p:q:r`. -/
theorem basicAuth_colonTruncation_w :
    (jsSplit ' ' "Basic eHl6").get? 1 = some "eHl6"
    ∧ "eHl6" ≠ ""
    ∧ (fun _ : String => "a@b:p:q:r") "eHl6" = "a@b" ++ ":" ++ "p" ++ ":" ++ "q:r"
    ∧ (':' : Char) ∉ ("a@b" : String).data
    ∧ (':' : Char) ∉ ("p" : String).data
    ∧ (getBasicAuthToken (fun _ => "a@b:p:q:r") (some "Basic eHl6")
          = some ⟨"a@b", some "p"⟩
       ∧ (∀ d, getBasicAuthToken d none = none)
       ∧ (∀ (d : String → String) (h2 : String), (jsSplit ' ' h2).get? 1 = none →
           getBasicAuthToken d (some h2) = none)
       ∧ (∀ (sha1 : String → String) (db : List User) (u : User),
           (∀ a b, sha1 a = sha1 b → a = b) →
           findUserByEmail db "a@b" = some u →
           u.password = sha1 ("p" ++ ":" ++ "q:r") →
           authenticateUser sha1 db "a@b" "p" = none)
       ∧ (∀ (d sh : String → String) (db : List User) (st : RStore) (tk : String),
           getConnect d sh db st tk none = none)) :=
  ⟨by decide, by decide, by decide, by decide, by decide,
   basicAuth_colonTruncation (fun _ => "a@b:p:q:r") "Basic eHl6" "eHl6" "a@b" "p" "q:r"
     (by decide) (by decide) (by decide) (by decide) (by decide)⟩

end FilesManager
